import Mathlib

/-!
Verification development for the reshuffle-monday-connector repository.

This file gives a shallow embedding of `src/index.ts` (the only source
file) and proves the behavioural claims about it.  Pure computations of
the TypeScript source become Lean functions; the connector's mutable
fields (`webhookLastChangedAt`, `started`, the `eventConfigurations`
registry) become an explicit `ConnectorState` threaded through the
webhook handler; asynchronous calls that can reject become `Except`
values.  JavaScript `string | number` id values are embedded as `JsPrim`
with `String(x)` as `jsToString`; `undefined`-able values are `Option`s.
-/

namespace Monday

/-- JavaScript `string | number` values, as accepted for board/item ids. -/
inductive JsPrim where
  | str : String → JsPrim
  | num : Int → JsPrim
  deriving DecidableEq

/-- JavaScript `String(x)` applied to a `string | number` value
(integer fragment of JS number-to-string conversion). -/
def jsToString : JsPrim → String
  | JsPrim.str s => s
  | JsPrim.num n => toString n

/-- JavaScript `Number(x)` on a `string | number` value; `none` models
`NaN`. Integer fragment: `Number("")` is `0`, a whole signed-digit string
parses, anything else is `NaN`. -/
def jsNumber : JsPrim → Option Int
  | JsPrim.num n => some n
  | JsPrim.str s => if s = "" then some 0 else s.toInt?

/-- Numeric value of a list of decimal digit characters. -/
def digitsValue (cs : List Char) : Nat :=
  cs.foldl (fun a c => a * 10 + (c.toNat - 48)) 0

/-- JavaScript `parseInt(s, 10)`: skip whitespace, optional sign, read the
longest decimal-digit prefix; `none` models `NaN` (no digits). -/
def jsParseInt (s : String) : Option Int :=
  let cs := s.data.dropWhile Char.isWhitespace
  match cs with
  | '-' :: rest =>
    let ds := rest.takeWhile Char.isDigit
    if ds.isEmpty then none else some (-(digitsValue ds : Int))
  | '+' :: rest =>
    let ds := rest.takeWhile Char.isDigit
    if ds.isEmpty then none else some ((digitsValue ds : Int))
  | _ =>
    let ds := cs.takeWhile Char.isDigit
    if ds.isEmpty then none else some ((digitsValue ds : Int))

/-- `MONDAY_ID_REGEX = /^\d{9,10}$/` — `.test` on a string: between 9 and
10 characters, all decimal digits. -/
def mondayIdTest (s : String) : Bool :=
  decide (9 ≤ s.length) && decide (s.length ≤ 10) && s.data.all Char.isDigit

/-- `JS_TO_MONDAY_EVENT_NAMES` object lookup: translate JavaScript
friendly names into Monday event names; `none` models `undefined` for a
key not in the object. -/
def JS_TO_MONDAY_EVENT_NAMES (s : String) : Option String :=
  if s = "IncomingNotification" then some "incoming_notification"
  else if s = "ChangeColumnValue" then some "change_column_value"
  else if s = "ChangeSpecificColumnValue" then some "change_specific_column_value"
  else if s = "CreateItem" then some "create_item"
  else if s = "CreateUpdate" then some "create_update"
  else none

/-- `MONDAY_TO_JS_EVENT_NAMES` object lookup: translate Monday event
names into JavaScript friendly names (two spellings of the change-column
events are accepted); `none` models `undefined`. -/
def MONDAY_TO_JS_EVENT_NAMES (s : String) : Option String :=
  if s = "incoming_notification" then some "IncomingNotification"
  else if s = "change_column_value" then some "ChangeColumnValue"
  else if s = "update_column_value" then some "ChangeColumnValue"
  else if s = "change_specific_column_value" then some "ChangeSpecificColumnValue"
  else if s = "update_specific_column_value" then some "ChangeSpecificColumnValue"
  else if s = "create_item" then some "CreateItem"
  else if s = "create_update" then some "CreateUpdate"
  else none

/-- The keys of the `MONDAY_TO_JS_EVENT_NAMES` object. -/
def mondayEventKeys : List String :=
  ["incoming_notification", "change_column_value", "update_column_value",
   "change_specific_column_value", "update_specific_column_value",
   "create_item", "create_update"]

/-- `MondayConnectorEventOptions`: the argument of `on`. -/
structure MondayConnectorEventOptions where
  boardId : JsPrim
  type : String
  columnId : Option String
  deriving DecidableEq

/-- The options object stored inside an `EventConfiguration` by `on`:
`{ boardId, type: options.type, columnId: options.columnId }` with
`boardId` already coerced to string. -/
structure StoredEventOptions where
  boardId : String
  type : String
  columnId : Option String
  deriving DecidableEq

/-- `EventConfiguration` (from the host framework): an id plus the
options stored by `on`. -/
structure EventConfiguration where
  id : String
  options : StoredEventOptions
  deriving DecidableEq

/-- JavaScript `a || b` for a possibly-undefined string `a` (used for the
`eventId ||` default in `on`): the default is taken when `a` is absent or
the empty string (falsy). -/
def jsOrElse (s : Option String) (d : String) : String :=
  match s with
  | some v => if v = "" then d else v
  | none => d

/-- `MondayConnector.on`, state-passing form (`on` is a reserved token
in Lean, hence the name `onRegister`): `connId` is `this.id`, `subs` is
the current `eventConfigurations` registry in insertion order.  On
success returns the created `EventConfiguration` together with the
updated registry; an `Except.error` models a synchronously thrown
`Error` (the registry is left untouched by the caller in that case). -/
def onRegister (connId : String) (subs : List EventConfiguration)
    (options : MondayConnectorEventOptions) (eventId : Option String) :
    Except String (EventConfiguration × List EventConfiguration) :=
  let boardId := jsToString options.boardId
  if mondayIdTest boardId = false then
    Except.error ("Invalid board id: " ++ jsToString options.boardId)
  else if JS_TO_MONDAY_EVENT_NAMES options.type = none then
    Except.error ("Invalid event type: " ++ options.type)
  else if options.type = "ChangeSpecificColumnValue" ∧
      mondayIdTest (jsOrElse options.columnId "") = false then
    Except.error ("Invalid column id for type ChangeSpecificColumnValue: " ++
      (match options.columnId with | some c => c | none => "undefined"))
  else
    let event : EventConfiguration :=
      ⟨jsOrElse eventId
          ("MondayConnector/" ++ jsToString options.boardId ++ "/" ++
            options.type ++ "/" ++ connId),
        ⟨boardId, options.type, options.columnId⟩⟩
    Except.ok (event, subs ++ [event])

/-- The raw webhook event object `req.body.event` with the fields the
connector reads.  Numeric ids are `Int` (JS numbers, integer fragment);
`changedAt` is optional because a payload may lack it; fields the
connector merely copies are kept as opaque strings. -/
structure RawEvent where
  userId : Int
  originalTriggerUuid : String
  boardId : Int
  groupId : String
  pulseId : Int
  pulseName : String
  columnId : String
  columnType : String
  columnTitle : String
  value : String
  previousValue : String
  changedAt : Option Int
  isTopGroup : Bool
  type : String
  triggerTime : String
  subscriptionId : Int
  triggerUuid : String
  deriving DecidableEq

/-- The normalized `MondayEvent` delivered to handlers.  `type` is
`Option String` because the `MONDAY_TO_JS_EVENT_NAMES` lookup may be
`undefined`. -/
structure MondayEvent where
  userId : String
  originalTriggerUuid : String
  boardId : String
  groupId : String
  itemId : String
  pulseId : String
  itemName : String
  pulseName : String
  columnId : String
  columnType : String
  columnTitle : String
  value : String
  previousValue : String
  changedAt : Option Int
  isTopGroup : Bool
  type : Option String
  triggerTime : String
  subscriptionId : String
  triggerUuid : String
  deriving DecidableEq

/-- The `event` object built at the top of
`MondayConnector.handleWebhookEvent`. -/
def normalizeEvent (ev : RawEvent) : MondayEvent :=
  { userId := toString ev.userId
    originalTriggerUuid := ev.originalTriggerUuid
    boardId := toString ev.boardId
    groupId := ev.groupId
    itemId := toString ev.pulseId
    pulseId := toString ev.pulseId
    itemName := ev.pulseName
    pulseName := ev.pulseName
    columnId := ev.columnId
    columnType := ev.columnType
    columnTitle := ev.columnTitle
    value := ev.value
    previousValue := ev.previousValue
    changedAt := ev.changedAt
    isTopGroup := ev.isTopGroup
    type := MONDAY_TO_JS_EVENT_NAMES ev.type
    triggerTime := ev.triggerTime
    subscriptionId := toString ev.subscriptionId
    triggerUuid := ev.triggerUuid }

/-- The loop guard of `handleWebhookEvent`:
`o.boardId === event.boardId && o.type === event.type` (an event with
`type` `undefined` compares unequal to every stored string type). -/
def matchesEvent (event : MondayEvent) (ec : EventConfiguration) : Bool :=
  decide (ec.options.boardId = event.boardId ∧ some ec.options.type = event.type)

/-- The dispatch loop of `handleWebhookEvent` over the registry values:
for each configuration whose guard matches, `await app.handleEvent`.
`h` models `app.handleEvent`; an `Except.error` models a handler throw,
which aborts the remaining loop.  Returns the invocations performed in
order, paired with the first thrown error if any. -/
def fanOut (h : String → MondayEvent → Except String Unit)
    (subs : List EventConfiguration) (event : MondayEvent) :
    List (String × MondayEvent) × Option String :=
  match subs with
  | [] => ([], none)
  | ec :: rest =>
    if matchesEvent event ec then
      match h ec.id event with
      | Except.error e => ([(ec.id, event)], some e)
      | Except.ok _ =>
        let r := fanOut h rest event
        ((ec.id, event) :: r.1, r.2)
    else fanOut h rest event

/-- Specification-side reformulation of the dispatch loop: run the
handlers of a pre-filtered list of matching subscriptions sequentially,
stopping at the first throw. -/
def runHandlers (h : String → MondayEvent → Except String Unit)
    (event : MondayEvent) :
    List EventConfiguration → List (String × MondayEvent) × Option String
  | [] => ([], none)
  | ec :: rest =>
    match h ec.id event with
    | Except.error e => ([(ec.id, event)], some e)
    | Except.ok _ =>
      let r := runHandlers h event rest
      ((ec.id, event) :: r.1, r.2)

/-- The mutable connector state read and written by `handle`. -/
structure ConnectorState where
  started : Bool
  webhookLastChangedAt : Option Int
  subs : List EventConfiguration
  deriving DecidableEq

/-- An inbound `req.body`: possibly a `challenge` token, possibly an
`event` object. -/
structure RequestBody where
  challenge : Option String
  event : Option RawEvent
  deriving DecidableEq

/-- Observable outcome of one `handle` call: the JSON challenge echo if
any, whether `handleWebhookEvent` was invoked, the handler invocations
performed in order, the error propagated out of `handle` if any (a
handler throw, or the `TypeError` of reading `ev.changedAt` when the
body has no event), and the state after the call. -/
structure HandleOutput where
  response : Option String
  dispatched : Bool
  invoked : List (String × MondayEvent)
  thrown : Option String
  newState : ConnectorState
  deriving DecidableEq

/-- The non-challenge branch of `handle` (`else if (this.started)`):
dedup on `webhookLastChangedAt !== ev.changedAt`, then dispatch and,
only after the dispatch completes without a throw, record the
watermark. -/
def handleNonChallenge (h : String → MondayEvent → Except String Unit)
    (st : ConnectorState) (ev? : Option RawEvent) : HandleOutput :=
  if st.started then
    match ev? with
    | none => ⟨none, false, [], some "TypeError", st⟩
    | some ev =>
      if st.webhookLastChangedAt = ev.changedAt then
        ⟨none, false, [], none, st⟩
      else
        let r := fanOut h st.subs (normalizeEvent ev)
        match r.2 with
        | some e => ⟨none, true, r.1, some e, st⟩
        | none =>
          ⟨none, true, r.1, none,
            { st with webhookLastChangedAt := ev.changedAt }⟩
  else ⟨none, false, [], none, st⟩

/-- `MondayConnector.handle`: echo a truthy `challenge` as JSON and stop;
otherwise run the non-challenge branch. -/
def handle (h : String → MondayEvent → Except String Unit)
    (st : ConnectorState) (body : RequestBody) : HandleOutput :=
  match body.challenge with
  | some c =>
    if c = "" then handleNonChallenge h st body.event
    else ⟨some c, false, [], none, st⟩
  | none => handleNonChallenge h st body.event

/-- A request body carrying only an event payload. -/
def eventBody (ev : RawEvent) : RequestBody := ⟨none, some ev⟩

/-- One element of a GraphQL `errors` array (only `message` is read). -/
structure GraphQLError where
  message : String
  deriving DecidableEq

/-- `MondayApiReponse` (source spelling): `Option` fields model presence
of the corresponding keys. -/
structure MondayApiReponse (α : Type) where
  data : Option α := none
  errors : Option (List GraphQLError) := none
  error_message : Option String := none
  account_id : Option String := none
  deriving DecidableEq

/-- The detail appended to `"Monday API Error"` by the `MondayError`
constructor: the single message when `errors` has exactly one element,
`"s (n)"` when `errors` is present otherwise, else `error_message` if
present, else empty. -/
def mondayErrorDetail {α : Type} (res : MondayApiReponse α) : String :=
  match res.errors with
  | some errs =>
    match errs with
    | [e] => e.message
    | _ => "s (" ++ toString errs.length ++ ")"
  | none =>
    match res.error_message with
    | some m => m
    | none => ""

/-- `MondayError`: carries the response and the composed message. -/
structure MondayError (α : Type) where
  res : MondayApiReponse α
  message : String
  deriving DecidableEq

/-- The `MondayError` built from a response. -/
def mkMondayError {α : Type} (res : MondayApiReponse α) : MondayError α :=
  ⟨res, "Monday API Error" ++ mondayErrorDetail res⟩

/-- `MondayConnector.query` applied to the SDK response: return
`res.data` when the `data` key is present (`'data' in res`), otherwise
throw a `MondayError`. -/
def query {α : Type} (res : MondayApiReponse α) : Except (MondayError α) α :=
  match res.data with
  | some d => Except.ok d
  | none => Except.error (mkMondayError res)

/-- A board as returned by `query { boards { id name } }`. -/
structure Board where
  id : String
  name : String
  deriving DecidableEq

/-- `MondayConnector.getBoardIdByName` applied to the fetched board
list: `boards.filter(b => b.name === name)[0]`, then
`board && parseInt(board.id, 10)`.  The outer `Option` models the
`undefined` returned when no board matches; the inner one models a
`NaN` from `parseInt`. -/
def getBoardIdByName (boards : List Board) (name : String) :
    Option (Option Int) :=
  match (boards.filter (fun b => b.name == name)).head? with
  | none => none
  | some b => some (jsParseInt b.id)

/-- One entry of an item's `column_values` (`id`, `title`, and the raw
JSON-encoded `value` string). -/
structure ColumnValue where
  id : String
  title : String
  value : String
  deriving DecidableEq

/-- The loop of `updateColumnValues` building `newValues`, iterating the
updater entries in key order: find the column by title (throw if
absent), require a function updater (throw otherwise), and record
`newValues[cv.id] = String(updater(JSON.parse(cv.value)))`.  `parse`
models `JSON.parse` into the value domain `V`; `toStr` models the
`String(...)` coercion of the updater's result domain `W`; an updater
entry of `none` models a non-function value under that key. -/
def buildNewValues {V W : Type} (parse : String → V) (toStr : W → String)
    (columnValues : List ColumnValue) :
    List (String × Option (V → W)) → Except String (List (String × String))
  | [] => Except.ok []
  | (title, u) :: rest =>
    match columnValues.find? (fun cv => cv.title == title) with
    | none => Except.error ("Column title not found: " ++ title)
    | some cv =>
      match u with
      | none => Except.error ("Missing or invalid updater for: " ++ title)
      | some f =>
        match buildNewValues parse toStr columnValues rest with
        | Except.error e => Except.error e
        | Except.ok l =>
          Except.ok ((cv.id, toStr (f (parse cv.value))) :: l)

/-- `MondayConnector.updateColumnValues`, abstracted over the two query
calls: the input is the `data` of the item fetch (`none` when the query
resolved with no data, triggering `Unable to read item`) holding
`items[0].column_values`; the output is the `column_values` payload of
the single `change_multiple_column_values` mutation that is then
submitted, or the thrown error — in which case no mutation is submitted
at all. -/
def updateColumnValues {V W : Type} (parse : String → V) (toStr : W → String)
    (data : Option (List ColumnValue))
    (updaters : List (String × Option (V → W))) :
    Except String (List (String × String)) :=
  match data with
  | none => Except.error "Unable to read item"
  | some columnValues => buildNewValues parse toStr columnValues updaters

/-- Specification-side payload of `updateColumnValues`: for each updater
entry whose title resolves to a column and whose updater is a function,
map that column's id to `String(f(parse(v)))`. -/
def specPayload {V W : Type} (parse : String → V) (toStr : W → String)
    (columnValues : List ColumnValue)
    (updaters : List (String × Option (V → W))) : List (String × String) :=
  updaters.filterMap (fun tu =>
    match columnValues.find? (fun cv => cv.title == tu.1), tu.2 with
    | some cv, some f => some (cv.id, toStr (f (parse cv.value)))
    | _, _ => none)

/-- The variables object passed to the `create_webhook` mutation:
`config` is present only when the `event === 'ChangeSpecificColumnValue'`
branch runs; its payload is the (possibly undefined) `columnId`. -/
structure CreateWebhookParams where
  board_id : Option Int
  url : String
  event : Option String
  config : Option (Option String)
  deriving DecidableEq

/-- `MondayConnector.createWebhook` up to the mutation submission: build
the `params` object.  `event` is `Option String` because
`createEventWebhook` may pass an `undefined` lookup result through. -/
def createWebhook (boardId : JsPrim) (url : String) (event : Option String)
    (columnId : Option String) : CreateWebhookParams :=
  { board_id := jsNumber boardId
    url := url
    event := event
    config := if event = some "ChangeSpecificColumnValue" then some columnId
      else none }

/-- `MondayConnector.createEventWebhook`: require a configured base URL,
then call `createWebhook` with the event name translated through
`JS_TO_MONDAY_EVENT_NAMES`. -/
def createEventWebhook (webhookURL : Option String) (boardId : JsPrim)
    (event : String) (columnId : Option String) :
    Except String CreateWebhookParams :=
  match webhookURL with
  | none => Except.error "Base URL not configured"
  | some url =>
    Except.ok (createWebhook boardId url (JS_TO_MONDAY_EVENT_NAMES event) columnId)

/-- Whether an `Except` is a thrown error. -/
def isErr {ε α : Type} : Except ε α → Bool
  | Except.error _ => true
  | Except.ok _ => false

/-! Concrete sample data used by witnesses and counterexamples, mirroring
the scenario of the specification: a subscription on board `123456789`
for `ChangeColumnValue`, and a raw delivery of a
`change_column_value` event with `changedAt` 100. -/

/-- An `app.handleEvent` model in which every handler succeeds. -/
def h0 : String → MondayEvent → Except String Unit := fun _ _ => Except.ok ()

/-- An `app.handleEvent` model in which the invoked handler throws. -/
def hFail : String → MondayEvent → Except String Unit :=
  fun _ _ => Except.error "boom"

/-- A stored subscription for board `123456789`, type `ChangeColumnValue`. -/
def ec0 : EventConfiguration :=
  ⟨"MondayConnector/123456789/ChangeColumnValue/c0",
    ⟨"123456789", "ChangeColumnValue", none⟩⟩

/-- The raw delivery of the specification scenario (`changedAt` 100). -/
def ev100 : RawEvent :=
  ⟨77, "otu-1", 123456789, "group1", 55, "Task", "col1", "text", "Title",
    "v", "pv", some 100, true, "change_column_value", "t0", 987654321, "tu-1"⟩

/-- The same delivery with `changedAt` 200. -/
def ev200 : RawEvent := { ev100 with changedAt := some 200 }

/-- A started connector with no watermark yet and the one subscription. -/
def st1 : ConnectorState := ⟨true, none, [ec0]⟩

/-! Helper lemmas about the dispatch loop. -/

/-- The source dispatch loop equals the specification-side form: filter
the registry by the match guard, then run the matching handlers in
order. -/
theorem fanOut_eq_runHandlers (h : String → MondayEvent → Except String Unit)
    (ev : MondayEvent) (subs : List EventConfiguration) :
    fanOut h subs ev = runHandlers h ev (subs.filter (matchesEvent ev)) := by
  induction subs with
  | nil => rfl
  | cons ec rest ih =>
    by_cases hm : matchesEvent ev ec = true
    · rw [List.filter_cons_of_pos hm]
      simp only [fanOut, hm, if_true, runHandlers]
      cases hh : h ec.id ev with
      | error e => rfl
      | ok u => simp [ih]
    · rw [List.filter_cons_of_neg hm]
      simp only [fanOut, hm, if_false, ih]
      simp [Bool.not_eq_true] at hm
      simp [hm]

/-- When every handler succeeds, running a list of matching
subscriptions invokes each of them in order with the event. -/
theorem runHandlers_ok (h : String → MondayEvent → Except String Unit)
    (hok : ∀ id e, h id e = Except.ok ()) (ev : MondayEvent)
    (l : List EventConfiguration) :
    runHandlers h ev l = (l.map (fun ec => (ec.id, ev)), none) := by
  induction l with
  | nil => rfl
  | cons ec rest ih => simp [runHandlers, hok, ih]

/-- When every handler succeeds, the dispatch loop invokes exactly the
matching subscriptions in registry order and throws nothing. -/
theorem fanOut_ok (h : String → MondayEvent → Except String Unit)
    (hok : ∀ id e, h id e = Except.ok ()) (subs : List EventConfiguration)
    (ev : MondayEvent) :
    fanOut h subs ev =
      ((subs.filter (matchesEvent ev)).map (fun ec => (ec.id, ev)), none) := by
  rw [fanOut_eq_runHandlers, runHandlers_ok h hok]

/-- When every handler succeeds, the dispatch loop throws nothing. -/
theorem fanOut_snd_ok (h : String → MondayEvent → Except String Unit)
    (hok : ∀ id e, h id e = Except.ok ()) (subs : List EventConfiguration)
    (ev : MondayEvent) : (fanOut h subs ev).2 = none := by
  rw [fanOut_ok h hok]

/-- `filter`-then-head equals `find?`: `boards.filter(p)[0]` is the
first element satisfying `p`. -/
theorem head?_filter_eq_find? {α : Type} (p : α → Bool) (l : List α) :
    (l.filter p).head? = l.find? p := by
  induction l with
  | nil => rfl
  | cons a t ih =>
    by_cases hp : p a = true
    · rw [List.filter_cons_of_pos hp, List.find?_cons_of_pos _ hp]
      rfl
    · rw [List.filter_cons_of_neg hp, List.find?_cons_of_neg _ hp, ih]

/-- An event whose normalized type is `undefined` matches no stored
subscription. -/
theorem matchesEvent_type_none (ev : MondayEvent) (ht : ev.type = none)
    (ec : EventConfiguration) : matchesEvent ev ec = false := by
  simp [matchesEvent, ht]

/-! Claim theorems. -/

/-- Claim C4: for every inbound request whose body carries a (truthy)
`challenge` token, `handle` responds with a JSON body containing that
same challenge value and performs no handler dispatch, no watermark read
or update, and no other action — the state is returned unchanged and
the event, if present, is ignored. -/
theorem C4_challenge_echo (h : String → MondayEvent → Except String Unit)
    (st : ConnectorState) (c : String) (ev : Option RawEvent) (hc : c ≠ "") :
    handle h st ⟨some c, ev⟩ = ⟨some c, false, [], none, st⟩ := by
  simp [handle, hc]

/-- Witness for C4 at a concrete challenge body that also carries an
event payload. -/
theorem C4_challenge_echo_witness :
    handle h0 st1 ⟨some "tok-42", some ev100⟩ =
      ⟨some "tok-42", false, [], none, st1⟩ :=
  C4_challenge_echo h0 st1 "tok-42" (some ev100) (by decide)

/-- Claim C5: the normalized event aliases `pulseId` as both `itemId`
and `pulseId`, aliases `pulseName` as both `itemName` and `pulseName`,
coerces the ids (`userId`, `boardId`, `pulseId`, `subscriptionId`) to
strings, maps the raw type through the fixed
`MONDAY_TO_JS_EVENT_NAMES` table, and an unrecognized raw event type
yields an `undefined` normalized type. -/
theorem C5_normalize (ev : RawEvent) (s : String) :
    (normalizeEvent ev).itemId = toString ev.pulseId ∧
    (normalizeEvent ev).pulseId = toString ev.pulseId ∧
    (normalizeEvent ev).itemName = ev.pulseName ∧
    (normalizeEvent ev).pulseName = ev.pulseName ∧
    (normalizeEvent ev).userId = toString ev.userId ∧
    (normalizeEvent ev).boardId = toString ev.boardId ∧
    (normalizeEvent ev).subscriptionId = toString ev.subscriptionId ∧
    (normalizeEvent ev).changedAt = ev.changedAt ∧
    (normalizeEvent ev).type = MONDAY_TO_JS_EVENT_NAMES ev.type ∧
    (s ∉ mondayEventKeys → MONDAY_TO_JS_EVENT_NAMES s = none) := by
  refine ⟨rfl, rfl, rfl, rfl, rfl, rfl, rfl, rfl, rfl, ?_⟩
  intro hs
  simp only [mondayEventKeys, List.mem_cons, List.mem_singleton, not_or] at hs
  obtain ⟨h1, h2, h3, h4, h5, h6, h7, -⟩ := hs
  simp [MONDAY_TO_JS_EVENT_NAMES, h1, h2, h3, h4, h5, h6, h7]

/-- Witness for C5 on the specification scenario's delivery and an
unrecognized raw type. -/
theorem C5_normalize_witness :
    (normalizeEvent ev100).boardId = "123456789" ∧
    (normalizeEvent ev100).itemId = "55" ∧
    (normalizeEvent ev100).itemName = "Task" ∧
    (normalizeEvent ev100).type = some "ChangeColumnValue" ∧
    MONDAY_TO_JS_EVENT_NAMES "bogus_event_type" = none := by
  have h := C5_normalize ev100 "bogus_event_type"
  refine ⟨?_, ?_, ?_, ?_, h.2.2.2.2.2.2.2.2.2 (by decide)⟩
  · rw [h.2.2.2.2.2.1]; decide
  · rw [h.1]; decide
  · rw [h.2.2.1]; decide
  · rw [h.2.2.2.2.2.2.2.2.1]; decide

/-- Claim C6: the dispatch loop invokes exactly those subscriptions
whose stored board id and event type equal the normalized event's board
id and type, sequentially (each handler completing before the next is
invoked, a throw aborting the remainder) and in registration order; and
an event whose normalized type is `undefined` matches no
subscription. -/
theorem C6_fanout (h : String → MondayEvent → Except String Unit)
    (subs : List EventConfiguration) (ev : MondayEvent) :
    fanOut h subs ev = runHandlers h ev (subs.filter (matchesEvent ev)) ∧
    ((∀ id e, h id e = Except.ok ()) →
      fanOut h subs ev =
        ((subs.filter (matchesEvent ev)).map (fun ec => (ec.id, ev)), none)) ∧
    (ev.type = none → fanOut h subs ev = ([], none)) := by
  refine ⟨fanOut_eq_runHandlers h ev subs, fun hok => fanOut_ok h hok subs ev, ?_⟩
  intro ht
  rw [fanOut_eq_runHandlers h ev subs]
  have : subs.filter (matchesEvent ev) = [] :=
    List.filter_eq_nil_iff.mpr (fun ec _ => by
      simp [matchesEvent_type_none ev ht ec])
  rw [this]
  rfl

/-- Witness for C6: the sample subscription is invoked for the matching
normalized event, and the same event with `undefined` type matches
nothing. -/
theorem C6_fanout_witness :
    fanOut h0 [ec0] (normalizeEvent ev100) =
      ([(ec0.id, normalizeEvent ev100)], none) ∧
    fanOut h0 [ec0] { normalizeEvent ev100 with type := none } = ([], none) := by
  constructor
  · have h := (C6_fanout h0 [ec0] (normalizeEvent ev100)).2.1 (fun _ _ => rfl)
    rw [h]
    decide
  · exact (C6_fanout h0 [ec0] { normalizeEvent ev100 with type := none }).2.2 rfl

/-- Claim C8: `getBoardIdByName` returns the id of the first board whose
name equals the requested name exactly, parsed as an integer, and
`undefined` when no board's name matches. -/
theorem C8_board_by_name (boards : List Board) (name : String) :
    (∀ b, boards.find? (fun b => b.name == name) = some b →
      getBoardIdByName boards name = some (jsParseInt b.id)) ∧
    (boards.find? (fun b => b.name == name) = none →
      getBoardIdByName boards name = none) := by
  constructor
  · intro b hb
    simp [getBoardIdByName, head?_filter_eq_find?, hb]
  · intro hb
    simp [getBoardIdByName, head?_filter_eq_find?, hb]

/-- Witness for C8 on a concrete board list. -/
theorem C8_board_by_name_witness :
    getBoardIdByName [⟨"123", "A"⟩, ⟨"987654321", "B"⟩] "B" =
      some (some 987654321) ∧
    getBoardIdByName [⟨"123", "A"⟩, ⟨"987654321", "B"⟩] "Z" = none := by
  constructor
  · have h := (C8_board_by_name [⟨"123", "A"⟩, ⟨"987654321", "B"⟩] "B").1
      ⟨"987654321", "B"⟩ (by decide)
    rw [h]
    decide
  · exact (C8_board_by_name [⟨"123", "A"⟩, ⟨"987654321", "B"⟩] "Z").2 (by decide)

/-- The event-name translation never produces the untranslated literal
`'ChangeSpecificColumnValue'` that `createWebhook`'s config branch
compares against. -/
theorem js_to_monday_ne_literal (e : String) :
    JS_TO_MONDAY_EVENT_NAMES e ≠ some "ChangeSpecificColumnValue" := by
  unfold JS_TO_MONDAY_EVENT_NAMES
  split_ifs <;> simp

/-- Claim C9: `createEventWebhook` translates the event name to Monday's
snake_case form before calling `createWebhook`, whose config branch
compares against the untranslated literal `'ChangeSpecificColumnValue'`;
hence the mutation variables it produces never include a `config` field
and the `columnId` argument is always dropped — even though a direct
`createWebhook` call with the untranslated literal would set it. -/
theorem C9_config_dropped (u : String) (b : JsPrim) (e : String)
    (c : Option String) (p : CreateWebhookParams)
    (hp : createEventWebhook (some u) b e c = Except.ok p) :
    p.config = none ∧
    JS_TO_MONDAY_EVENT_NAMES "ChangeSpecificColumnValue" =
      some "change_specific_column_value" ∧
    (createWebhook b u (some "ChangeSpecificColumnValue") c).config = some c := by
  refine ⟨?_, rfl, by simp [createWebhook]⟩
  simp only [createEventWebhook, Except.ok.injEq] at hp
  rw [← hp]
  simp [createWebhook, js_to_monday_ne_literal e]

/-- Witness for C9: a `ChangeSpecificColumnValue` registration with a
column id still yields variables without a `config` field. -/
theorem C9_config_dropped_witness :
    (createWebhook (JsPrim.num 123456789) "https://example.com/webhooks/monday"
      (JS_TO_MONDAY_EVENT_NAMES "ChangeSpecificColumnValue")
      (some "123456789")).config = none :=
  (C9_config_dropped "https://example.com/webhooks/monday" (JsPrim.num 123456789)
    "ChangeSpecificColumnValue" (some "123456789") _ rfl).1

/-- A response with both a `data` key and a non-empty `errors` list
(GraphQL allows partial results). -/
def resBoth : MondayApiReponse String :=
  { data := some "payload", errors := some [⟨"boom"⟩] }

/-- Claim C2 counterexample: `resBoth` contains `errors`, so by the
claim `query` must raise a `MondayError`, yet the code checks
`'data' in res` first and resolves with the data payload. -/
theorem C2_query_cex :
    resBoth.errors = some [⟨"boom"⟩] ∧ query resBoth = Except.ok "payload" :=
  ⟨rfl, rfl⟩

/-- Claim C2 (amended): `query` resolves with the `data` payload
whenever the response carries a `data` key — even when `errors` are also
present — and raises a `MondayError` carrying the structured response
exactly when the `data` key is absent; the error message embeds the
single human-readable message when the `errors` list has exactly one
element. -/
theorem C2_query_amended {α : Type} (res : MondayApiReponse α) :
    (∀ d, res.data = some d → query res = Except.ok d) ∧
    (res.data = none → query res = Except.error (mkMondayError res)) ∧
    ((mkMondayError res).res = res) ∧
    (∀ e, res.errors = some [e] →
      (mkMondayError res).message = "Monday API Error" ++ e.message) := by
    refine ⟨?_, ?_, rfl, ?_⟩
    · intro d hd
      simp [query, hd]
    · intro hd
      simp [query, hd]
    · intro e he
      simp [mkMondayError, mondayErrorDetail, he]

/-- Witness for C2 (amended) on a plain success and a plain error
response. -/
theorem C2_query_amended_witness :
    query { data := some "payload" : MondayApiReponse String } =
      Except.ok "payload" ∧
    query { errors := some [⟨"boom"⟩] : MondayApiReponse String } =
      Except.error ⟨{ errors := some [⟨"boom"⟩] }, "Monday API Errorboom"⟩ := by
  constructor
  · exact (C2_query_amended { data := some "payload" }).1 "payload" rfl
  · have h := (C2_query_amended
      { errors := some [⟨"boom"⟩] : MondayApiReponse String }).2.1 rfl
    rw [h]
    rfl

/-- The registration validity the code actually enforces: board id
matching the 9–10 digit pattern, recognized type, and — only when the
type is the column-specific one — a column id matching the same
pattern. -/
def validOn (options : MondayConnectorEventOptions) : Prop :=
  mondayIdTest (jsToString options.boardId) = true ∧
  (JS_TO_MONDAY_EVENT_NAMES options.type).isSome = true ∧
  (options.type = "ChangeSpecificColumnValue" →
    mondayIdTest (jsOrElse options.columnId "") = true)

instance (options : MondayConnectorEventOptions) : Decidable (validOn options) := by
  unfold validOn
  infer_instance

/-- The `EventConfiguration` that `onRegister` constructs on success. -/
def mkOnEvent (connId : String) (options : MondayConnectorEventOptions)
    (eventId : Option String) : EventConfiguration :=
  ⟨jsOrElse eventId
      ("MondayConnector/" ++ jsToString options.boardId ++ "/" ++
        options.type ++ "/" ++ connId),
    ⟨jsToString options.boardId, options.type, options.columnId⟩⟩

/-- Options that the claim calls invalid — a `columnId` supplied with a
non-column-specific type — but that the code accepts. -/
def extraColOpts : MondayConnectorEventOptions :=
  ⟨JsPrim.num 123456789, "CreateItem", some "123456789"⟩

/-- Claim C3 counterexample: a `columnId` is present although the type
is not `ChangeSpecificColumnValue` — by the claim's "columnId present
iff column-specific type" this combination is invalid and must throw —
yet registration succeeds. -/
theorem C3_on_cex :
    extraColOpts.columnId.isSome = true ∧
    extraColOpts.type ≠ "ChangeSpecificColumnValue" ∧
    isErr (onRegister "c0" [] extraColOpts none) = false := by
  decide

/-- Claim C3 (amended): registration succeeds, returns the constructed
configuration handle, and appends it to the subscription set exactly
when the coerced board id matches the 9–10 digit pattern, the type is
recognized, and — if the type is `ChangeSpecificColumnValue` — a column
id matching the same pattern is supplied (a columnId supplied with any
other type is accepted, not rejected); in every other case `onRegister`
throws synchronously and no subscription is added. -/
theorem C3_on_amended (connId : String) (subs : List EventConfiguration)
    (options : MondayConnectorEventOptions) (eventId : Option String) :
    (validOn options →
      onRegister connId subs options eventId =
        Except.ok (mkOnEvent connId options eventId,
          subs ++ [mkOnEvent connId options eventId])) ∧
    (¬ validOn options →
      isErr (onRegister connId subs options eventId) = true) := by
  constructor
  · intro hv
    obtain ⟨h1, h2, h3⟩ := hv
    simp only [onRegister]
    split_ifs with hc1 hc2 hc3
    · rw [h1] at hc1
      exact absurd hc1 (by simp)
    · rw [hc2] at h2
      exact absurd h2 (by simp)
    · obtain ⟨hty, hcol⟩ := hc3
      rw [h3 hty] at hcol
      exact absurd hcol (by simp)
    · rfl
  · intro hv
    simp only [onRegister]
    split_ifs with hc1 hc2 hc3
    · rfl
    · rfl
    · rfl
    · exfalso
      apply hv
      refine ⟨?_, ?_, ?_⟩
      · simpa [Bool.not_eq_false] using hc1
      · simpa [Option.isSome_iff_ne_none] using hc2
      · intro hty
        by_contra hcol
        exact hc3 ⟨hty, by simpa [Bool.not_eq_true] using hcol⟩

/-- Witness for C3 (amended): a valid registration succeeds and appends;
a malformed board id throws. -/
theorem C3_on_amended_witness :
    onRegister "c0" []
      ⟨JsPrim.num 123456789, "ChangeColumnValue", none⟩ none =
      Except.ok
        (mkOnEvent "c0" ⟨JsPrim.num 123456789, "ChangeColumnValue", none⟩ none,
          [mkOnEvent "c0" ⟨JsPrim.num 123456789, "ChangeColumnValue", none⟩ none]) ∧
    isErr (onRegister "c0" []
      ⟨JsPrim.str "12", "ChangeColumnValue", none⟩ none) = true := by
  constructor
  · exact (C3_on_amended "c0" []
      ⟨JsPrim.num 123456789, "ChangeColumnValue", none⟩ none).1 (by decide)
  · exact (C3_on_amended "c0" []
      ⟨JsPrim.str "12", "ChangeColumnValue", none⟩ none).2 (by decide)

/-- Claim C7: when every named column title is found among the item's
column values and every updater is a function, `updateColumnValues`
submits exactly one mutation whose payload maps each named column's id
to `String(f(v))` with `v` the column's parsed current value; if any
named title is missing or any updater is not a function, the call
throws and no mutation is submitted for any column (likewise when the
item fetch returned no data). -/
theorem C7_update_columns {V W : Type} (parse : String → V)
    (toStr : W → String) (cvs : List ColumnValue)
    (updaters : List (String × Option (V → W))) :
    (updaters.all (fun tu =>
        (cvs.find? (fun cv => cv.title == tu.1)).isSome && tu.2.isSome) = true →
      updateColumnValues parse toStr (some cvs) updaters =
        Except.ok (specPayload parse toStr cvs updaters)) ∧
    (updaters.any (fun tu =>
        (cvs.find? (fun cv => cv.title == tu.1)).isNone || tu.2.isNone) = true →
      isErr (updateColumnValues parse toStr (some cvs) updaters) = true) ∧
    isErr (updateColumnValues parse toStr none updaters) = true := by
  refine ⟨?_, ?_, rfl⟩
  · intro hall
    simp only [updateColumnValues]
    induction updaters with
    | nil => rfl
    | cons tu rest ih =>
      simp only [List.all_cons, Bool.and_eq_true] at hall
      obtain ⟨⟨hf, hu⟩, hrest⟩ := hall
      obtain ⟨cv, hcv⟩ := Option.isSome_iff_exists.mp hf
      obtain ⟨f, hfu⟩ := Option.isSome_iff_exists.mp hu
      obtain ⟨t, u⟩ := tu
      simp only at hcv hfu
      simp only [buildNewValues, hcv, hfu, ih hrest, specPayload,
        List.filterMap_cons]
  · intro hany
    simp only [updateColumnValues]
    induction updaters with
    | nil => simp at hany
    | cons tu rest ih =>
      simp only [List.any_cons, Bool.or_eq_true] at hany
      obtain ⟨t, u⟩ := tu
      rcases hany with hbad | hrest
      · simp only [Bool.or_eq_true, Option.isNone_iff_eq_none] at hbad
        rcases hbad with hfnone | hunone
        · simp [buildNewValues, hfnone, isErr]
        · cases hcv : cvs.find? (fun cv => cv.title == t) with
          | none => simp [buildNewValues, hcv, isErr]
          | some cv => simp [buildNewValues, hcv, hunone, isErr]
      · have := ih hrest
        cases hcv : cvs.find? (fun cv => cv.title == t) with
        | none => simp [buildNewValues, hcv, isErr]
        | some cv =>
          cases hu : u with
          | none => simp [buildNewValues, hcv, isErr]
          | some f =>
            simp only [buildNewValues, hcv, hu]
            cases hb : buildNewValues parse toStr cvs rest with
            | error e => simp [isErr]
            | ok l => rw [hb] at this; simp [isErr] at this

/-- Witness for C7: one updater on a one-column item produces the single
payload entry; the same updaters against an item without that column
throw. -/
theorem C7_update_columns_witness :
    updateColumnValues (fun s => s) (fun s => s)
      (some [⟨"c1", "Title", "5"⟩]) [("Title", some (fun v => v ++ "!"))] =
      Except.ok [("c1", "5!")] ∧
    isErr (updateColumnValues (fun s => s) (fun s => s)
      (some []) [("Title", some (fun v => v ++ "!"))]) = true := by
  constructor
  · have h := (C7_update_columns (fun s => s) (fun s => s)
      [⟨"c1", "Title", "5"⟩] [("Title", some (fun v => v ++ "!"))]).1 rfl
    rw [h]
    rfl
  · exact (C7_update_columns (fun s => s) (fun s => s)
      [] [("Title", some (fun v => v ++ "!"))]).2.1 rfl

/-- Claim C1 counterexample: after a first successful delivery of
`changedAt` 100 records the watermark, the second and third deliveries
of the same payload are a pair of consecutive deliveries with identical
`changedAt`, yet zero handler fan-outs occur across that pair — not the
exactly one the claim demands for every such pair. -/
theorem C1_dedup_cex :
    (handle h0 ((handle h0 st1 (eventBody ev100)).newState)
      (eventBody ev100)).dispatched = false ∧
    (handle h0 ((handle h0 ((handle h0 st1 (eventBody ev100)).newState)
      (eventBody ev100)).newState) (eventBody ev100)).dispatched = false := by
  decide

/-- Claim C1 (amended): on a started connector with successful handlers,
a non-challenge delivery whose `changedAt` equals the recorded watermark
is discarded silently (no fan-out, state unchanged); otherwise the
fan-out runs and the watermark becomes that `changedAt`.  Consequently,
for a pair of consecutive deliveries whose first is not itself
suppressed by the current watermark: identical `changedAt` yields
exactly one fan-out (the second is suppressed and leaves the state
unchanged), and differing `changedAt` yields a fan-out for each. -/
theorem C1_dedup_amended (h : String → MondayEvent → Except String Unit)
    (st : ConnectorState) (ev1 ev2 : RawEvent)
    (hs : st.started = true)
    (hok : ∀ id e, h id e = Except.ok ()) :
    (st.webhookLastChangedAt = ev1.changedAt →
      handle h st (eventBody ev1) = ⟨none, false, [], none, st⟩) ∧
    (st.webhookLastChangedAt ≠ ev1.changedAt →
      (handle h st (eventBody ev1)).dispatched = true ∧
      (handle h st (eventBody ev1)).newState =
        { st with webhookLastChangedAt := ev1.changedAt } ∧
      (ev1.changedAt = ev2.changedAt →
        (handle h (handle h st (eventBody ev1)).newState
          (eventBody ev2)).dispatched = false ∧
        (handle h (handle h st (eventBody ev1)).newState
          (eventBody ev2)).newState = (handle h st (eventBody ev1)).newState) ∧
      (ev1.changedAt ≠ ev2.changedAt →
        (handle h (handle h st (eventBody ev1)).newState
          (eventBody ev2)).dispatched = true ∧
        (handle h (handle h st (eventBody ev1)).newState
          (eventBody ev2)).newState.webhookLastChangedAt = ev2.changedAt)) := by
  have hfan : ∀ ev', (fanOut h st.subs ev').2 = none :=
    fun ev' => fanOut_snd_ok h hok st.subs ev'
  constructor
  · intro heq
    simp [handle, eventBody, handleNonChallenge, hs, heq]
  · intro hne
    have hd1 : handle h st (eventBody ev1) =
        ⟨none, true, (fanOut h st.subs (normalizeEvent ev1)).1, none,
          { st with webhookLastChangedAt := ev1.changedAt }⟩ := by
      simp only [handle, eventBody, handleNonChallenge, hs, if_true, if_neg hne]
      rw [show (fanOut h st.subs (normalizeEvent ev1)).2 = none from
        hfan (normalizeEvent ev1)]
    rw [hd1]
    refine ⟨rfl, rfl, ?_, ?_⟩
    · intro heq2
      simp [handle, eventBody, handleNonChallenge, hs, heq2]
    · intro hne2
      simp only [handle, eventBody, handleNonChallenge, hs, if_true, if_neg hne2]
      rw [show (fanOut h st.subs (normalizeEvent ev2)).2 = none from
        hfan (normalizeEvent ev2)]
      exact ⟨rfl, rfl⟩

/-- Witness for C1 (amended): on the sample connector, the first
delivery with `changedAt` 100 fans out, its redelivery is suppressed,
and a delivery with `changedAt` 200 fans out again. -/
theorem C1_dedup_amended_witness :
    (handle h0 st1 (eventBody ev100)).dispatched = true ∧
    (handle h0 (handle h0 st1 (eventBody ev100)).newState
      (eventBody ev100)).dispatched = false ∧
    (handle h0 (handle h0 st1 (eventBody ev100)).newState
      (eventBody ev200)).dispatched = true := by
  have h₁ := (C1_dedup_amended h0 st1 ev100 ev100 rfl (fun _ _ => rfl)).2
    (by decide)
  have h₂ := (C1_dedup_amended h0 st1 ev100 ev200 rfl (fun _ _ => rfl)).2
    (by decide)
  exact ⟨h₁.1, (h₁.2.2.1 rfl).1, (h₂.2.2.2 (by decide)).1⟩

/-- Claim C10: when a handler throws during the fan-out of a
non-duplicate delivery, `handle` propagates the error and leaves the
watermark (indeed the whole state) unchanged, because the watermark is
written only after the fan-out completes; a redelivery with the same
`changedAt` whose handlers now succeed is therefore dispatched again
rather than suppressed. -/
theorem C10_failed_fanout (h hRetry : String → MondayEvent → Except String Unit)
    (st : ConnectorState) (ev : RawEvent) (err : String)
    (hs : st.started = true)
    (hne : st.webhookLastChangedAt ≠ ev.changedAt)
    (hfail : (fanOut h st.subs (normalizeEvent ev)).2 = some err)
    (hok : ∀ id e, hRetry id e = Except.ok ()) :
    (handle h st (eventBody ev)).thrown = some err ∧
    (handle h st (eventBody ev)).newState = st ∧
    (handle hRetry (handle h st (eventBody ev)).newState
      (eventBody ev)).dispatched = true := by
  have hd : handle h st (eventBody ev) =
      ⟨none, true, (fanOut h st.subs (normalizeEvent ev)).1, some err, st⟩ := by
    simp only [handle, eventBody, handleNonChallenge, hs, if_true, if_neg hne]
    rw [hfail]
  refine ⟨by rw [hd], by rw [hd], ?_⟩
  rw [hd]
  simp only [handle, eventBody, handleNonChallenge, hs, if_true, if_neg hne]
  rw [show (fanOut hRetry st.subs (normalizeEvent ev)).2 = none from
    fanOut_snd_ok hRetry hok st.subs (normalizeEvent ev)]

/-- Witness for C10: a throwing handler on the sample connector leaves
the state unchanged and the redelivery with succeeding handlers is
dispatched. -/
theorem C10_failed_fanout_witness :
    (handle hFail st1 (eventBody ev100)).thrown = some "boom" ∧
    (handle hFail st1 (eventBody ev100)).newState = st1 ∧
    (handle h0 (handle hFail st1 (eventBody ev100)).newState
      (eventBody ev100)).dispatched = true :=
  C10_failed_fanout hFail h0 st1 ev100 "boom" rfl (by decide) (by decide)
    (fun _ _ => rfl)

end Monday
